import Mathlib

/-!
Verification development for the ICaaS build-lifecycle service
(icaas/controllers/builds.py).  The controller functions are embedded as
pure Lean functions over an explicit record store.  The external
collaborators (identity verifier, compute provisioner) are parameters;
asynchronous background units (threads) are modelled by separate
functions applied to a store, and the request handlers report whether
such a unit was scheduled.  Logging has no observable effect and is
omitted, except where the source would crash while producing a log
message, which is modelled as an uncaught exception.
-/

namespace Icaas

/-- A JSON value, as produced by request.get_json.  This is also used for
the Python values flowing through the handlers. -/
inductive JVal where
  | jnull
  | jbool (b : Bool)
  | jnum (n : Int)
  | jstr (s : String)
  | jarr (elems : List JVal)
  | jobj (fields : List (String × JVal))
deriving Repr

/-- Python truthiness of a JSON value. -/
def JVal.truthy : JVal → Bool
  | .jnull => false
  | .jbool b => b
  | .jnum n => n != 0
  | .jstr s => s != ""
  | .jarr l => !l.isEmpty
  | .jobj l => !l.isEmpty

/-- Truthiness of dict.get(k, None): None is falsy. -/
def optTruthy : Option JVal → Bool
  | none => false
  | some v => v.truthy

/-- A decoded JSON object (Python dict).  Keys are unique in any dict
produced by JSON decoding; lookup takes the first binding. -/
abbrev PyDict := List (String × JVal)

/-- dict.get(k, None). -/
def pyGet (d : PyDict) (k : String) : Option JVal :=
  (d.find? (fun p => p.1 == k)).map (·.2)

/-- User record (icaas/models.py is external to this embedding; the fields
are the ones builds.py reads and writes: id, uuid, token). -/
structure User where
  id : Nat
  uuid : String
  token : String
deriving Repr

/-- Build record.  image and log are kept in decoded form: the
json.dumps/json.loads round trip through the database column is modelled
as the identity.  created and updated are opaque timestamp strings. -/
structure Build where
  id : Nat
  user : Nat
  name : String
  src : String
  status : String
  status_details : JVal
  image : JVal
  log : JVal
  token : String
  agent : Option Nat
  agent_alive : Bool
  deleted : Bool
  created : String
  updated : String
deriving Repr

/-- The record store: the Build and User tables. -/
structure Store where
  builds : List Build
  users : List User
deriving Repr

/-- Commit of a mutated Build row: replace the row with the same primary
key.  Primary keys are unique in any store produced by the database. -/
def Store.setBuild (s : Store) (b : Build) : Store :=
  { s with builds := s.builds.map (fun x => if x.id == b.id then b else x) }

/-- Commit of a mutated User row. -/
def Store.setUser (s : Store) (u : User) : Store :=
  { s with users := s.users.map (fun x => if x.id == u.id then u else x) }

/-- Primary key assigned by the database to a freshly inserted User. -/
def freshUserId (s : Store) : Nat :=
  s.users.foldl (fun m u => max m u.id) 0 + 1

/-- Primary key assigned by the database to a freshly inserted Build. -/
def freshBuildId (s : Store) : Nat :=
  s.builds.foldl (fun m b => max m b.id) 0 + 1

/-- The deployment settings read by builds.py (icaas/settings). -/
structure Settings where
  endpoint : String
  auth_url : String
  insecure : Bool
  debug : Bool
deriving Repr

/-- An icaas.error.Error carrying a message and an HTTP status. -/
structure ErrorE where
  message : String
  status : Nat
deriving Repr

/-- Outcome of one update request: the store after the request, whether a
DestroyAgentThread was started, and the response (202 or an error). -/
structure UpdateOut where
  store : Store
  teardown : Bool
  resp : Except ErrorE Nat
deriving Repr

/-- Statuses accepted by update. -/
def allowedStatuses : List String := ["CREATING", "ERROR", "COMPLETED"]

/-- Error message of update for a missing or falsy request body. -/
def msgBodyMissing : String :=
  "Parameters \x27status\x27 and \x27status_details\x27 are missing"

/-- Error message of update for a missing or falsy status parameter. -/
def msgStatusMissing : String := "Parameter: \x27status\x27 is missing"

/-- Error message of update for a status outside the allowed set. -/
def msgStatusInvalid : String := "Invalid \x27status\x27 parameter"

/-- The optional details parameter: if details: build.status_details = details. -/
def applyDetails (b : Build) (details : Option JVal) : Build :=
  match details with
  | some d => if d.truthy then { b with status_details := d } else b
  | none => b

/-- Embeds update (PUT /icaas/builds/buildid) from builds.py.  xIcaasToken
is the X-Icaas-Token header; body is request.get_json() where a decoded
JSON object is the only body shape exercised by the agent. -/
def update (settings : Settings) (store : Store) (buildid : Nat)
    (xIcaasToken : Option String) (body : Option PyDict) : UpdateOut :=
  match xIcaasToken with
  | none => ⟨store, false, .error ⟨"Missing ICaaS token", 401⟩⟩
  | some token =>
    match (store.builds.filter
        (fun b => b.id == buildid && b.token == token && !b.deleted)).head? with
    | none => ⟨store, false, .error ⟨"Build not found", 404⟩⟩
    | some build =>
      match body with
      | some params =>
        if params.isEmpty then
          ⟨store, false, .error ⟨msgBodyMissing, 400⟩⟩
        else
          let status := pyGet params "status"
          let details := pyGet params "details"
          if !optTruthy status then
            ⟨store, false, .error ⟨msgStatusMissing, 400⟩⟩
          else
            match status with
            | some (JVal.jstr s) =>
              if allowedStatuses.contains s then
                let build := applyDetails { build with status := s } details
                ⟨store.setBuild build, s == "COMPLETED" || (s == "ERROR" && !settings.debug),
                 .ok 202⟩
              else
                ⟨store, false, .error ⟨msgStatusInvalid, 400⟩⟩
            | _ => ⟨store, false, .error ⟨msgStatusInvalid, 400⟩⟩
      | none =>
        ⟨store, false, .error ⟨msgBodyMissing, 400⟩⟩

/-- Outcome of the identity verifier call (astakos.authenticate()): an
explicit unauthorized answer, any other exception, or success with the
stable user identity access.user.id. -/
inductive Verify where
  | unauthorized
  | failure
  | authenticated (uuid : String)

/-- Embeds the login_required decorator from builds.py: resolves the
X-Auth-Token header to a User record, creating or refreshing it.  verify
models the identity verifier.  On success it returns the store after the
call, the User handed to the wrapped view, and the number of record-store
writes (commits) performed. -/
def login_required (store : Store) (xAuthToken : Option String)
    (verify : String → Verify) : Except ErrorE (Store × User × Nat) :=
  match xAuthToken with
  | none => .error ⟨"Token is missing", 401⟩
  | some token =>
    match verify token with
    | .unauthorized => .error ⟨"Invalid token", 401⟩
    | .failure => .error ⟨"Internal server error", 500⟩
    | .authenticated uuid =>
      match (store.users.filter (fun u => u.uuid == uuid)).head? with
      | none =>
        let user : User := { id := freshUserId store, uuid := uuid, token := token }
        .ok ({ store with users := store.users ++ [user] }, user, 1)
      | some user =>
        if user.token != token then
          let user := { user with token := token }
          .ok (store.setUser user, user, 1)
        else
          .ok (store, user, 0)

/-- Embeds _build_to_links from builds.py. -/
def _build_to_links (settings : Settings) (build : Build) : JVal :=
  JVal.jarr [JVal.jobj
    [("href", JVal.jstr (settings.endpoint ++ toString build.id)),
     ("rel", JVal.jstr "self")]]

/-- Embeds _build_to_dict from builds.py.  The second key is the literal
string written in the source: "name:". -/
def _build_to_dict (settings : Settings) (build : Build) : PyDict :=
  [("id", JVal.jnum build.id),
   ("name:", JVal.jstr build.name),
   ("src", JVal.jstr build.src),
   ("status", JVal.jstr build.status),
   ("status_details", build.status_details),
   ("image", build.image),
   ("log", build.log),
   ("created", JVal.jstr build.created),
   ("updated", JVal.jstr build.updated),
   ("links", _build_to_links settings build)]

/-- Embeds view (GET /icaas/builds/buildid) from builds.py, after the
login_required wrapper has produced user. -/
def view (settings : Settings) (store : Store) (user : User) (buildid : Nat) :
    Except ErrorE PyDict :=
  match (store.builds.filter
      (fun b => b.id == buildid && b.user == user.id && !b.deleted)).head? with
  | none => .error ⟨"Build not found", 404⟩
  | some build => .ok (_build_to_dict settings build)

/-- One entry of the list_builds result. -/
def buildEntry (settings : Settings) (i : Build) : PyDict :=
  [("links", _build_to_links settings i),
   ("id", JVal.jnum i.id),
   ("name", JVal.jstr i.name)]

/-- Embeds list_builds (GET /icaas/builds) from builds.py, after the
login_required wrapper has produced user. -/
def list_builds (settings : Settings) (store : Store) (user : User) : List PyDict :=
  (store.builds.filter (fun b => b.user == user.id && !b.deleted)).map
    (buildEntry settings)

/-- Error message of create for a missing or falsy request body. -/
def msgBuildMissing : String := "Required field \x22build\x22 is missing"

/-- Error message of create for a missing or falsy build namespace. -/
def msgBuildFieldsMissing : String :=
  "Required fields: \x22name\x22, \x22src\x22, \x22image\x22, \x22log\x22 are missing from namespace \x22build\x22"

/-- Error message of create for a missing or empty required parameter. -/
def msgParamMissing (p : String) : String :=
  "Parameter: \x27" ++ p ++ "\x27 is missing from namespace \x27build\x27 or empty"

/-- Error message of create for a non-dictionary descriptor. -/
def msgNotDict (name : String) : String :=
  "\x22" ++ name ++ "\x22 parameter is not a dictionary"

/-- Error message of create for a descriptor missing a required field. -/
def msgFieldMissing (f name : String) : String :=
  "\x22" ++ f ++ "\x22 field missing from parameter: \x22" ++ name ++ "\x22"

/-- Embeds check_dict_fields from create in builds.py, with its raises
turned into a returned error: none means the checks passed. -/
def check_dict_fields (name : String) (value : Option JVal) (fields : List String) :
    Option ErrorE :=
  if !optTruthy value then
    some ⟨msgParamMissing name, 400⟩
  else
    match value with
    | some (JVal.jobj d) =>
      fields.findSome? (fun f =>
        if (pyGet d f).isNone then some ⟨msgFieldMissing f name, 400⟩
        else none)
    | _ => some ⟨msgNotDict name, 400⟩

/-- Modelled from the spec: the Build constructor of icaas/models.py is
not under src/.  Per the spec a Build is created in state CREATING with a
fresh one-time callback token, no agent VM, agent not alive, not deleted.
The token and timestamps are modelled deterministically from the store
since no claim depends on their values. -/
def mkBuild (store : Store) (userId : Nat) (name src : String) (image log : JVal) :
    Build :=
  { id := freshBuildId store, user := userId, name := name, src := src,
    status := "CREATING", status_details := JVal.jnull,
    image := image, log := log,
    token := "tok-" ++ toString (freshBuildId store),
    agent := none, agent_alive := false, deleted := false,
    created := "", updated := "" }

/-- Stored text of a request value.  The create handler only ever stores
string name and src values in practice; the database text of a non-string
value is abstracted, since no claim depends on it. -/
def pyStrOf : Option JVal → String
  | some (JVal.jstr s) => s
  | _ => ""

/-- Embeds the synchronous part of create (POST /icaas/builds) from
builds.py, after login_required has produced user: validation, then the
insert-and-commit of the new Build row.  The error status of the bare
raise Error for a missing build namespace comes from the spec (every
validation violation is a 400; icaas/error.py is not under src/).  The
background create_agent unit it spawns is the separate function
create_agent below, applied to the store current when the thread runs. -/
def create (store : Store) (user : User) (body : Option PyDict) :
    Store × Except ErrorE Build :=
  match body with
  | none => (store, .error ⟨msgBuildMissing, 400⟩)
  | some outer =>
    if outer.isEmpty then
      (store, .error ⟨msgBuildMissing, 400⟩)
    else
      match pyGet outer "build" with
      | some (JVal.jobj params) =>
        if params.isEmpty then
          (store, .error ⟨msgBuildFieldsMissing, 400⟩)
        else
          let name := pyGet params "name"
          if !optTruthy name then (store, .error ⟨msgParamMissing "name", 400⟩)
          else
            let src := pyGet params "src"
            if !optTruthy src then (store, .error ⟨msgParamMissing "src", 400⟩)
            else
              match check_dict_fields "image" (pyGet params "image")
                  ["container", "object"] with
              | some e => (store, .error e)
              | none =>
                match check_dict_fields "log" (pyGet params "log")
                    ["container", "object"] with
                | some e => (store, .error e)
                | none =>
                  let b := mkBuild store user.id (pyStrOf name) (pyStrOf src)
                    ((pyGet params "image").getD JVal.jnull)
                    ((pyGet params "log").getD JVal.jnull)
                  ({ store with builds := store.builds ++ [b] }, .ok b)
      | some v =>
        if v.truthy then
          (store,
           .error ⟨"AttributeError: request body field \x22build\x22 is not a dictionary",
                   500⟩)
        else
          (store, .error ⟨msgBuildFieldsMissing, 400⟩)
      | none =>
        (store, .error ⟨msgBuildFieldsMissing, 400⟩)

/-- Embeds _create_manifest from builds.py.  The INI serialization done
by config.write is abstracted: the manifest is the list of
(section, key, value) settings in the order the source sets them.  none
models the assert failures (log or image not a dict) and the KeyError on
a missing container or object key, which in the source would crash the
background thread. -/
def _create_manifest (settings : Settings) (src name : String) (log image : JVal)
    (token : String) (buildid : Nat) (icaas_token : String) :
    Option (List (String × String × JVal)) :=
  match log, image with
  | JVal.jobj logd, JVal.jobj imaged =>
    match pyGet imaged "container", pyGet imaged "object",
          pyGet logd "container", pyGet logd "object" with
    | some ic, some iobj, some lc, some lobj =>
      some
        ([("image", "src", JVal.jstr src),
          ("image", "name", JVal.jstr name),
          ("image", "container", ic),
          ("image", "object", iobj)] ++
         (match pyGet imaged "account" with
          | some a => if a.truthy then [("image", "account", a)] else []
          | none => []) ++
         [("service", "status",
           JVal.jstr (settings.endpoint ++ "builds/" ++ toString buildid)),
          ("service", "token", JVal.jstr icaas_token),
          ("service", "insecure", JVal.jbool settings.insecure),
          ("synnefo", "url", JVal.jstr settings.auth_url),
          ("synnefo", "token", JVal.jstr token),
          ("log", "container", lc),
          ("log", "object", lobj)] ++
         (match pyGet logd "account" with
          | some a => if a.truthy then [("log", "account", a)] else []
          | none => []))
    | _, _, _, _ => none
  | _, _ => none

/-- Outcome of the compute.create_server call inside create_agent: a
kamaki ClientError, any other exception, or the created server record
with its id. -/
inductive ProvisionOutcome where
  | clientError (status : Nat) (msg : String)
  | otherError (msg : String)
  | ok (vmId : Nat)

/-- Result of one run of the create_agent background unit: the store
after the run, whether a manifest was built, whether the compute
provisioner create_server call was made, and the text of an uncaught
exception when the thread crashed instead of returning. -/
structure AgentRun where
  store : Store
  manifestBuilt : Bool
  provisionCalled : Bool
  crashed : Option String
deriving Repr

/-- Embeds the create_agent background unit spawned by create in
builds.py, run against the store current when the thread executes.  src,
name, log, image and token are the request values captured by the
closure; provision is the outcome of the compute.create_server call.
When the refetch by id with deleted=False finds no row, the source
evaluates build.id on None while formatting its log message, so the
thread dies with an AttributeError instead of reaching its return. -/
def create_agent (settings : Settings) (store : Store) (buildid : Nat)
    (src name : String) (log image : JVal) (token : String)
    (provision : ProvisionOutcome) : AgentRun :=
  match (store.builds.filter (fun b => b.id == buildid && !b.deleted)).head? with
  | none =>
    ⟨store, false, false,
     some "AttributeError: \x27NoneType\x27 object has no attribute \x27id\x27"⟩
  | some build =>
    match _create_manifest settings src name log image token build.id build.token with
    | none => ⟨store, false, false, some "error building the manifest"⟩
    | some _ =>
      match provision with
      | .clientError st msg =>
        ⟨store.setBuild
          { build with
            status := "ERROR",
            status_details := JVal.jstr ("icaas agent creation failed: (" ++
              toString st ++ ", " ++ msg ++ ")") },
         true, true, none⟩
      | .otherError _ =>
        ⟨store.setBuild
          { build with
            status := "ERROR",
            status_details := JVal.jstr "icaas agent creation failed" },
         true, true, none⟩
      | .ok vmId =>
        ⟨store.setBuild
          { build with
            agent := some vmId, agent_alive := true,
            status_details := JVal.jstr "started icaas agent creation" },
         true, true, none⟩

/-! Concrete sample records used by witnesses and counterexamples. -/

/-- A concrete Build row with the given id, owner, status, token,
agent-alive flag and deleted flag. -/
def sampleBuild (id user : Nat) (status token : String) (alive deleted : Bool) :
    Build :=
  { id := id, user := user, name := "img1", src := "http://x/img",
    status := status, status_details := JVal.jnull,
    image := JVal.jobj [("container", JVal.jstr "imgs"), ("object", JVal.jstr "o1")],
    log := JVal.jobj [("container", JVal.jstr "logs"), ("object", JVal.jstr "l1")],
    token := token, agent := some 7, agent_alive := alive, deleted := deleted,
    created := "c", updated := "u" }

/-- Concrete settings with debug off. -/
def sampleSettings : Settings :=
  { endpoint := "http://icaas/", auth_url := "http://auth/",
    insecure := false, debug := false }

/-- Concrete settings with debug on. -/
def sampleSettingsDebug : Settings :=
  { endpoint := "http://icaas/", auth_url := "http://auth/",
    insecure := false, debug := true }

/-! Helper lemmas. -/

theorem applyDetails_id (b : Build) (d : Option JVal) :
    (applyDetails b d).id = b.id := by
  unfold applyDetails
  cases d with
  | none => rfl
  | some v =>
    cases h : v.truthy with
    | true => simp [h]
    | false => simp [h]

theorem applyDetails_status (b : Build) (d : Option JVal) :
    (applyDetails b d).status = b.status := by
  unfold applyDetails
  cases d with
  | none => rfl
  | some v =>
    cases h : v.truthy with
    | true => simp [h]
    | false => simp [h]

theorem applyDetails_agent_alive (b : Build) (d : Option JVal) :
    (applyDetails b d).agent_alive = b.agent_alive := by
  unfold applyDetails
  cases d with
  | none => rfl
  | some v =>
    cases h : v.truthy with
    | true => simp [h]
    | false => simp [h]

/-- Characterization of the success path of update: whenever the token
lookup finds a build and the body carries an allowed status string, the
handler commits that status (and optional details) and answers 202, and
the teardown decision is exactly the boolean of the source. -/
theorem update_success_eq (settings : Settings) (store : Store) (buildid : Nat)
    (tok : String) (params : PyDict) (b : Build) (s : String)
    (hfind : (store.builds.filter
        (fun x => x.id == buildid && x.token == tok && !x.deleted)).head? = some b)
    (hstatus : pyGet params "status" = some (JVal.jstr s))
    (hs : s ∈ allowedStatuses) :
    update settings store buildid (some tok) (some params) =
      ⟨store.setBuild (applyDetails { b with status := s } (pyGet params "details")),
       s == "COMPLETED" || (s == "ERROR" && !settings.debug), .ok 202⟩ := by
  have hne : params.isEmpty = false := by
    cases params with
    | nil => simp [pyGet] at hstatus
    | cons a l => rfl
  have hs3 : s = "CREATING" ∨ s = "ERROR" ∨ s = "COMPLETED" := by
    simpa [allowedStatuses] using hs
  rcases hs3 with rfl | rfl | rfl <;>
    simp [update, hfind, hne, hstatus, optTruthy, JVal.truthy, allowedStatuses]

/-- C1 counterexample: a build whose status is the terminal COMPLETED is
moved back to CREATING by an agent callback carrying the correct one-time
token, and the call is accepted with 202. -/
theorem update_moves_completed_back_to_creating :
    ((update sampleSettings
        ⟨[sampleBuild 1 1 "COMPLETED" "t" true false], []⟩ 1
        (some "t") (some [("status", JVal.jstr "CREATING")])).store.builds.map
          Build.status = ["CREATING"]) ∧
    (update sampleSettings
        ⟨[sampleBuild 1 1 "COMPLETED" "t" true false], []⟩ 1
        (some "t") (some [("status", JVal.jstr "CREATING")])).resp = .ok 202 :=
  ⟨rfl, rfl⟩

/-- C1 amended: update applies any requested allowed status regardless of
the current status of the build; the code does not enforce forward-only
transitions, so a terminal build can be moved back to CREATING or to the
other terminal value by a callback holding the one-time token. -/
theorem update_applies_status_regardless_of_current (settings : Settings)
    (store : Store) (buildid : Nat) (tok : String) (params : PyDict)
    (b : Build) (s : String)
    (hfind : (store.builds.filter
        (fun x => x.id == buildid && x.token == tok && !x.deleted)).head? = some b)
    (hstatus : pyGet params "status" = some (JVal.jstr s))
    (hs : s ∈ allowedStatuses) :
    ∃ b', update settings store buildid (some tok) (some params) =
        ⟨store.setBuild b', s == "COMPLETED" || (s == "ERROR" && !settings.debug),
         .ok 202⟩ ∧
      b'.id = b.id ∧ b'.status = s := by
  refine ⟨applyDetails { b with status := s } (pyGet params "details"),
    update_success_eq settings store buildid tok params b s hfind hstatus hs, ?_, ?_⟩
  · simpa using applyDetails_id { b with status := s } (pyGet params "details")
  · simpa using applyDetails_status { b with status := s } (pyGet params "details")

/-- C1 witness: the amended statement applied to a COMPLETED build updated
to CREATING with the correct token. -/
theorem update_applies_status_regardless_of_current_witness :
    ∃ b', update sampleSettings
        ⟨[sampleBuild 1 1 "COMPLETED" "t" true false], []⟩ 1
        (some "t") (some [("status", JVal.jstr "CREATING")]) =
      ⟨(⟨[sampleBuild 1 1 "COMPLETED" "t" true false], []⟩ : Store).setBuild b',
       "CREATING" == "COMPLETED" || ("CREATING" == "ERROR" && !sampleSettings.debug),
       .ok 202⟩ ∧
      b'.id = (sampleBuild 1 1 "COMPLETED" "t" true false).id ∧
      b'.status = "CREATING" :=
  update_applies_status_regardless_of_current sampleSettings
    ⟨[sampleBuild 1 1 "COMPLETED" "t" true false], []⟩ 1 "t"
    [("status", JVal.jstr "CREATING")] (sampleBuild 1 1 "COMPLETED" "t" true false)
    "CREATING" rfl rfl (by simp [allowedStatuses])

/-- C2 counterexample: an update request with no X-Icaas-Token header is
answered with 401, not with the NotFound 404 the claim states. -/
theorem update_missing_token_gives_401 :
    update sampleSettings ⟨[sampleBuild 1 1 "CREATING" "t" true false], []⟩ 1 none
        (some [("status", JVal.jstr "ERROR")]) =
      ⟨⟨[sampleBuild 1 1 "CREATING" "t" true false], []⟩, false,
       .error ⟨"Missing ICaaS token", 401⟩⟩ ∧
    (401 : Nat) ≠ 404 :=
  ⟨rfl, by decide⟩

/-- C2 amended: an update whose one-time token matches no non-deleted
build with the given id returns NotFound 404; an update with the token
header missing returns 401.  In both cases the store is unchanged and no
teardown is scheduled. -/
theorem update_token_mismatch_404_no_change (settings : Settings) (store : Store)
    (buildid : Nat) (tok : String) (body : Option PyDict)
    (hno : ∀ b ∈ store.builds, b.id = buildid → b.token = tok → b.deleted = true) :
    update settings store buildid (some tok) body =
      ⟨store, false, .error ⟨"Build not found", 404⟩⟩ ∧
    update settings store buildid none body =
      ⟨store, false, .error ⟨"Missing ICaaS token", 401⟩⟩ := by
  have hnil : store.builds.filter
      (fun x => x.id == buildid && x.token == tok && !x.deleted) = [] := by
    rw [List.filter_eq_nil_iff]
    intro a ha h
    simp only [Bool.and_eq_true, beq_iff_eq, Bool.not_eq_true'] at h
    obtain ⟨⟨h1, h2⟩, h3⟩ := h
    simp [hno a ha h1 h2] at h3
  refine ⟨?_, rfl⟩
  simp [update, hnil]

/-- C2 witness: the amended statement applied to a store holding one build
with token t, queried with the wrong token. -/
theorem update_token_mismatch_404_no_change_witness :
    (update sampleSettings ⟨[sampleBuild 1 1 "CREATING" "t" true false], []⟩ 1
        (some "wrong") (some [("status", JVal.jstr "ERROR")]) =
      ⟨⟨[sampleBuild 1 1 "CREATING" "t" true false], []⟩, false,
       .error ⟨"Build not found", 404⟩⟩) ∧
    (update sampleSettings ⟨[sampleBuild 1 1 "CREATING" "t" true false], []⟩ 1
        none (some [("status", JVal.jstr "ERROR")]) =
      ⟨⟨[sampleBuild 1 1 "CREATING" "t" true false], []⟩, false,
       .error ⟨"Missing ICaaS token", 401⟩⟩) :=
  update_token_mismatch_404_no_change sampleSettings
    ⟨[sampleBuild 1 1 "CREATING" "t" true false], []⟩ 1 "wrong"
    (some [("status", JVal.jstr "ERROR")]) (by decide)

/-- C4: a successful update answers 202, schedules a teardown unit exactly
when the applied status is COMPLETED, or is ERROR with debug off, and
leaves the agent_alive flag of the build untouched. -/
theorem update_teardown_iff_completed_or_error_nodebug (settings : Settings)
    (store : Store) (buildid : Nat) (tok : String) (params : PyDict)
    (b : Build) (s : String)
    (hfind : (store.builds.filter
        (fun x => x.id == buildid && x.token == tok && !x.deleted)).head? = some b)
    (hstatus : pyGet params "status" = some (JVal.jstr s))
    (hs : s ∈ allowedStatuses) :
    (update settings store buildid (some tok) (some params)).resp = .ok 202 ∧
    ((update settings store buildid (some tok) (some params)).teardown = true ↔
      (s = "COMPLETED" ∨ (s = "ERROR" ∧ settings.debug = false))) ∧
    ∃ b', (update settings store buildid (some tok) (some params)).store =
        store.setBuild b' ∧ b'.agent_alive = b.agent_alive := by
  rw [update_success_eq settings store buildid tok params b s hfind hstatus hs]
  refine ⟨rfl, ?_, applyDetails { b with status := s } (pyGet params "details"),
    rfl, ?_⟩
  · simp
  · simpa using applyDetails_agent_alive { b with status := s } (pyGet params "details")

/-- C4 witness: ERROR applied in debug mode: 202 accepted, no teardown,
agent_alive untouched. -/
theorem update_teardown_iff_witness :
    (update sampleSettingsDebug ⟨[sampleBuild 1 1 "CREATING" "t" true false], []⟩ 1
        (some "t") (some [("status", JVal.jstr "ERROR")])).resp = .ok 202 ∧
    ((update sampleSettingsDebug ⟨[sampleBuild 1 1 "CREATING" "t" true false], []⟩ 1
        (some "t") (some [("status", JVal.jstr "ERROR")])).teardown = true ↔
      ("ERROR" = "COMPLETED" ∨
        ("ERROR" = "ERROR" ∧ sampleSettingsDebug.debug = false))) ∧
    ∃ b', (update sampleSettingsDebug
        ⟨[sampleBuild 1 1 "CREATING" "t" true false], []⟩ 1
        (some "t") (some [("status", JVal.jstr "ERROR")])).store =
        (⟨[sampleBuild 1 1 "CREATING" "t" true false], []⟩ : Store).setBuild b' ∧
      b'.agent_alive = (sampleBuild 1 1 "CREATING" "t" true false).agent_alive :=
  update_teardown_iff_completed_or_error_nodebug sampleSettingsDebug
    ⟨[sampleBuild 1 1 "CREATING" "t" true false], []⟩ 1 "t"
    [("status", JVal.jstr "ERROR")] (sampleBuild 1 1 "CREATING" "t" true false)
    "ERROR" rfl rfl (by simp [allowedStatuses])

/-- Packaging of a rejected update: the result equals an explicit
400-error literal, so the store is untouched, no teardown unit is
scheduled and the response is a 400 error. -/
theorem updateOut_error_spec (store : Store) (u : UpdateOut) (m : String)
    (h : u = ⟨store, false, .error ⟨m, 400⟩⟩) :
    u.store = store ∧ u.teardown = false ∧
      ∃ e, u.resp = .error e ∧ e.status = 400 := by
  subst h
  exact ⟨rfl, rfl, _, rfl, rfl⟩

/-- C10: when the token lookup succeeds but the body is absent, empty,
lacks a usable status, or carries a status outside the allowed set, update
answers 400 and leaves the store untouched with no teardown scheduled:
status and details are written only after all the validation checks
pass. -/
theorem update_invalid_body_400_unchanged (settings : Settings) (store : Store)
    (buildid : Nat) (tok : String) (body : Option PyDict) (b : Build)
    (hfind : (store.builds.filter
        (fun x => x.id == buildid && x.token == tok && !x.deleted)).head? = some b)
    (hbad : body = none ∨ ∃ params, body = some params ∧ (params = [] ∨
      ∀ s, pyGet params "status" = some (JVal.jstr s) → s ∉ allowedStatuses)) :
    (update settings store buildid (some tok) body).store = store ∧
    (update settings store buildid (some tok) body).teardown = false ∧
    ∃ e, (update settings store buildid (some tok) body).resp = .error e ∧
      e.status = 400 := by
  rcases hbad with rfl | ⟨params, rfl, hbad⟩
  · exact updateOut_error_spec store _ msgBodyMissing (by simp [update, hfind])
  · rcases hbad with rfl | hbad
    · exact updateOut_error_spec store _ msgBodyMissing (by simp [update, hfind])
    · by_cases hpe : params.isEmpty = true
      · exact updateOut_error_spec store _ msgBodyMissing
          (by simp [update, hfind, hpe])
      · rw [Bool.not_eq_true] at hpe
        cases hg : pyGet params "status" with
        | none =>
          exact updateOut_error_spec store _ msgStatusMissing
            (by simp [update, hfind, hpe, hg, optTruthy])
        | some v =>
          cases v with
          | jnull =>
            exact updateOut_error_spec store _ msgStatusMissing
              (by simp [update, hfind, hpe, hg, optTruthy, JVal.truthy])
          | jbool bb =>
            cases bb with
            | false =>
              exact updateOut_error_spec store _ msgStatusMissing
                (by simp [update, hfind, hpe, hg, optTruthy, JVal.truthy])
            | true =>
              exact updateOut_error_spec store _ msgStatusInvalid
                (by simp [update, hfind, hpe, hg, optTruthy, JVal.truthy])
          | jnum n =>
            by_cases hn : n = 0
            · exact updateOut_error_spec store _ msgStatusMissing
                (by simp [update, hfind, hpe, hg, optTruthy, JVal.truthy, hn])
            · exact updateOut_error_spec store _ msgStatusInvalid
                (by simp [update, hfind, hpe, hg, optTruthy, JVal.truthy, hn])
          | jarr l =>
            cases l with
            | nil =>
              exact updateOut_error_spec store _ msgStatusMissing
                (by simp [update, hfind, hpe, hg, optTruthy, JVal.truthy])
            | cons a t =>
              exact updateOut_error_spec store _ msgStatusInvalid
                (by simp [update, hfind, hpe, hg, optTruthy, JVal.truthy])
          | jobj l =>
            cases l with
            | nil =>
              exact updateOut_error_spec store _ msgStatusMissing
                (by simp [update, hfind, hpe, hg, optTruthy, JVal.truthy])
            | cons a t =>
              exact updateOut_error_spec store _ msgStatusInvalid
                (by simp [update, hfind, hpe, hg, optTruthy, JVal.truthy])
          | jstr s =>
            by_cases hs0 : s = ""
            · subst hs0
              exact updateOut_error_spec store _ msgStatusMissing
                (by simp [update, hfind, hpe, hg, optTruthy, JVal.truthy])
            · exact updateOut_error_spec store _ msgStatusInvalid
                (by simp [update, hfind, hpe, hg, optTruthy, JVal.truthy, hs0,
                          hbad s hg])

/-- C10 witness: correct id and token but a body whose status is the
unknown string BOGUS: 400, store untouched, no teardown. -/
theorem update_invalid_body_400_unchanged_witness :
    (update sampleSettings ⟨[sampleBuild 1 1 "CREATING" "t" true false], []⟩ 1
        (some "t") (some [("status", JVal.jstr "BOGUS")])).store =
      ⟨[sampleBuild 1 1 "CREATING" "t" true false], []⟩ ∧
    (update sampleSettings ⟨[sampleBuild 1 1 "CREATING" "t" true false], []⟩ 1
        (some "t") (some [("status", JVal.jstr "BOGUS")])).teardown = false ∧
    ∃ e, (update sampleSettings ⟨[sampleBuild 1 1 "CREATING" "t" true false], []⟩ 1
        (some "t") (some [("status", JVal.jstr "BOGUS")])).resp = .error e ∧
      e.status = 400 :=
  update_invalid_body_400_unchanged sampleSettings
    ⟨[sampleBuild 1 1 "CREATING" "t" true false], []⟩ 1 "t"
    (some [("status", JVal.jstr "BOGUS")]) (sampleBuild 1 1 "CREATING" "t" true false)
    rfl (Or.inr ⟨[("status", JVal.jstr "BOGUS")], rfl, Or.inr (by
      intro s hs
      rw [show pyGet [("status", JVal.jstr "BOGUS")] "status" =
          some (JVal.jstr "BOGUS") from rfl] at hs
      cases hs
      decide)⟩)

/-- In a list of builds with pairwise distinct primary keys, two members
with the same id are the same row. -/
theorem eq_of_mem_pairwise_ne_id : ∀ {l : List Build} {x b : Build},
    l.Pairwise (fun a c => a.id ≠ c.id) → x ∈ l → b ∈ l → x.id = b.id → x = b := by
  intro l
  induction l with
  | nil => intro x b _ hx _ _; cases hx
  | cons a t ih =>
    intro x b hp hx hb h
    obtain ⟨ha, ht⟩ := List.pairwise_cons.mp hp
    rcases List.mem_cons.mp hx with rfl | hx2
    · rcases List.mem_cons.mp hb with rfl | hb2
      · rfl
      · exact absurd h (ha b hb2)
    · rcases List.mem_cons.mp hb with rfl | hb2
      · exact absurd h (Ne.symm (ha x hx2))
      · exact ih ht hx2 hb2 h

/-- C6: a soft-deleted build is not viewable (view answers NotFound 404),
its id appears in no list entry, and list returns one links-id-name
entry for exactly the non-deleted builds owned by the caller. -/
theorem deleted_builds_not_viewable_not_listed (settings : Settings)
    (store : Store) (user : User) (b : Build)
    (huniq : store.builds.Pairwise (fun a c => a.id ≠ c.id))
    (hb : b ∈ store.builds) (hdel : b.deleted = true) :
    view settings store user b.id = .error ⟨"Build not found", 404⟩ ∧
    (∀ entry ∈ list_builds settings store user,
        pyGet entry "id" ≠ some (JVal.jnum b.id)) ∧
    (∀ entry, entry ∈ list_builds settings store user ↔
        ∃ x ∈ store.builds, x.user = user.id ∧ x.deleted = false ∧
          entry = buildEntry settings x) := by
  refine ⟨?_, ?_, ?_⟩
  · have hnil : store.builds.filter
        (fun x => x.id == b.id && x.user == user.id && !x.deleted) = [] := by
      rw [List.filter_eq_nil_iff]
      intro a ha h
      simp only [Bool.and_eq_true, beq_iff_eq, Bool.not_eq_true'] at h
      obtain ⟨⟨h1, _⟩, h3⟩ := h
      have : a = b := eq_of_mem_pairwise_ne_id huniq ha hb h1
      rw [this, hdel] at h3
      cases h3
    simp [view, hnil]
  · intro entry hentry
    obtain ⟨x, hx, hfx⟩ := List.mem_map.mp hentry
    obtain ⟨hxs, hq⟩ := List.mem_filter.mp hx
    simp only [Bool.and_eq_true, beq_iff_eq, Bool.not_eq_true'] at hq
    obtain ⟨_, hxdel⟩ := hq
    intro hid
    rw [← hfx] at hid
    have hid' : pyGet (buildEntry settings x) "id" = some (JVal.jnum x.id) := by
      simp [buildEntry, pyGet, List.find?]
    rw [hid'] at hid
    have hxb : x.id = b.id := by
      have := Option.some.inj hid
      exact_mod_cast JVal.jnum.inj this
    have : x = b := eq_of_mem_pairwise_ne_id huniq hxs hb hxb
    rw [this, hdel] at hxdel
    cases hxdel
  · intro entry
    constructor
    · intro hentry
      obtain ⟨x, hx, hfx⟩ := List.mem_map.mp hentry
      obtain ⟨hxs, hq⟩ := List.mem_filter.mp hx
      simp only [Bool.and_eq_true, beq_iff_eq, Bool.not_eq_true'] at hq
      exact ⟨x, hxs, hq.1, hq.2, hfx.symm⟩
    · rintro ⟨x, hxs, hu, hd, rfl⟩
      exact List.mem_map.mpr ⟨x,
        List.mem_filter.mpr ⟨hxs, by simp [hu, hd]⟩, rfl⟩

/-- C6 witness: a store with a soft-deleted build (id 1) and a live build
(id 2), both owned by user 1. -/
theorem deleted_builds_not_viewable_not_listed_witness :
    view sampleSettings ⟨[sampleBuild 1 1 "COMPLETED" "t" false true,
        sampleBuild 2 1 "CREATING" "u" true false], []⟩ ⟨1, "uu", "tk"⟩
        (sampleBuild 1 1 "COMPLETED" "t" false true).id =
      .error ⟨"Build not found", 404⟩ ∧
    (∀ entry ∈ list_builds sampleSettings
        ⟨[sampleBuild 1 1 "COMPLETED" "t" false true,
          sampleBuild 2 1 "CREATING" "u" true false], []⟩ ⟨1, "uu", "tk"⟩,
        pyGet entry "id" ≠
          some (JVal.jnum (sampleBuild 1 1 "COMPLETED" "t" false true).id)) ∧
    (∀ entry, entry ∈ list_builds sampleSettings
        ⟨[sampleBuild 1 1 "COMPLETED" "t" false true,
          sampleBuild 2 1 "CREATING" "u" true false], []⟩ ⟨1, "uu", "tk"⟩ ↔
        ∃ x ∈ (⟨[sampleBuild 1 1 "COMPLETED" "t" false true,
            sampleBuild 2 1 "CREATING" "u" true false], []⟩ : Store).builds,
          x.user = (⟨1, "uu", "tk"⟩ : User).id ∧ x.deleted = false ∧
            entry = buildEntry sampleSettings x) :=
  deleted_builds_not_viewable_not_listed sampleSettings
    ⟨[sampleBuild 1 1 "COMPLETED" "t" false true,
      sampleBuild 2 1 "CREATING" "u" true false], []⟩ ⟨1, "uu", "tk"⟩
    (sampleBuild 1 1 "COMPLETED" "t" false true)
    (by decide) (List.mem_cons_self _ _) rfl

/-- C7: the Build JSON produced by _build_to_dict (used by view and
create) exposes the registration name under the literal key "name:" with
a trailing colon, not under "name"; the other keys are as documented. -/
theorem build_to_dict_key_is_name_colon :
    ((_build_to_dict sampleSettings (sampleBuild 1 1 "CREATING" "t" false false)).map
        Prod.fst =
      ["id", "name:", "src", "status", "status_details", "image", "log",
       "created", "updated", "links"]) ∧
    ("name" ∉ (_build_to_dict sampleSettings
        (sampleBuild 1 1 "CREATING" "t" false false)).map Prod.fst) ∧
    view sampleSettings ⟨[sampleBuild 1 1 "CREATING" "t" false false], []⟩
        ⟨1, "uu", "tk"⟩ 1 =
      .ok (_build_to_dict sampleSettings (sampleBuild 1 1 "CREATING" "t" false false)) :=
  ⟨rfl, by decide, rfl⟩

/-- C8: on a successfully verified token the auth gate performs at most
one record write: it inserts a new User holding the presented token when
no User with the verified identity exists, rewrites the stored token in
place when it differs from the presented one, and writes nothing when the
stored token already equals the presented one. -/
theorem auth_gate_at_most_one_write (store : Store) (token uuid : String)
    (verify : String → Verify) (hv : verify token = .authenticated uuid) :
    ∃ s' u w, login_required store (some token) verify = .ok (s', u, w) ∧ w ≤ 1 ∧
      ((store.users.filter (fun x => x.uuid == uuid)).head? = none →
        s'.users = store.users ++
          [{ id := freshUserId store, uuid := uuid, token := token }] ∧ w = 1) ∧
      (∀ u0, (store.users.filter (fun x => x.uuid == uuid)).head? = some u0 →
        (u0.token ≠ token → s' = store.setUser { u0 with token := token } ∧ w = 1) ∧
        (u0.token = token → s' = store ∧ w = 0)) := by
  cases h : (store.users.filter (fun x => x.uuid == uuid)).head? with
  | none =>
    refine ⟨{ store with users := store.users ++
        [{ id := freshUserId store, uuid := uuid, token := token }] },
      { id := freshUserId store, uuid := uuid, token := token }, 1,
      ?_, Nat.le_refl 1, fun _ => ⟨rfl, rfl⟩, ?_⟩
    · simp [login_required, hv, h]
    · intro u0 hu0
      exact Option.noConfusion hu0
  | some u0 =>
    by_cases ht : u0.token = token
    · refine ⟨store, u0, 0, ?_, Nat.zero_le 1, ?_, ?_⟩
      · simp [login_required, hv, h, ht]
      · intro hn
        exact Option.noConfusion hn
      · intro u1 hu1
        injection hu1 with hu1
        subst hu1
        exact ⟨fun hne => absurd ht hne, fun _ => ⟨rfl, rfl⟩⟩
    · refine ⟨store.setUser { u0 with token := token }, { u0 with token := token },
        1, ?_, Nat.le_refl 1, ?_, ?_⟩
      · simp [login_required, hv, h, ht]
      · intro hn
        exact Option.noConfusion hn
      · intro u1 hu1
        injection hu1 with hu1
        subst hu1
        exact ⟨fun _ => ⟨rfl, rfl⟩, fun he => absurd he ht⟩

/-- C8 witness: first sight of identity u1 over an empty user table. -/
theorem auth_gate_at_most_one_write_witness :
    ∃ s' u w, login_required ⟨[], []⟩ (some "tk")
        (fun _ => Verify.authenticated "u1") = .ok (s', u, w) ∧ w ≤ 1 ∧
      (((⟨[], []⟩ : Store).users.filter (fun x => x.uuid == "u1")).head? = none →
        s'.users = (⟨[], []⟩ : Store).users ++
          [{ id := freshUserId ⟨[], []⟩, uuid := "u1", token := "tk" }] ∧ w = 1) ∧
      (∀ u0, ((⟨[], []⟩ : Store).users.filter
          (fun x => x.uuid == "u1")).head? = some u0 →
        (u0.token ≠ "tk" →
          s' = (⟨[], []⟩ : Store).setUser { u0 with token := "tk" } ∧ w = 1) ∧
        (u0.token = "tk" → s' = ⟨[], []⟩ ∧ w = 0)) :=
  auth_gate_at_most_one_write ⟨[], []⟩ "tk" "u1"
    (fun _ => Verify.authenticated "u1") rfl

/-- A bad image or log descriptor value, in the words of the claim: absent
or empty, not a mapping, or a mapping missing the container or object
key. -/
def descBad (v : Option JVal) : Prop :=
  optTruthy v = false ∨ (∀ d, v ≠ some (JVal.jobj d)) ∨
    ∃ d, v = some (JVal.jobj d) ∧
      (pyGet d "container" = none ∨ pyGet d "object" = none)

/-- Every error produced by check_dict_fields carries status 400. -/
theorem check_dict_fields_status (name : String) (v : Option JVal)
    (fields : List String) (e : ErrorE)
    (h : check_dict_fields name v fields = some e) : e.status = 400 := by
  unfold check_dict_fields at h
  split at h
  · injection h with h
    subst h
    rfl
  · split at h
    · obtain ⟨f, _, hf⟩ := List.exists_of_findSome?_eq_some h
      split at hf
      · injection hf with hf
        subst hf
        rfl
      · exact Option.noConfusion hf
    · injection h with h
      subst h
      rfl

/-- A bad descriptor never passes check_dict_fields with the container and
object field list. -/
theorem check_dict_fields_isSome_of_descBad (name : String) (v : Option JVal)
    (h : descBad v) :
    (check_dict_fields name v ["container", "object"]).isSome = true := by
  by_cases htv : optTruthy v = true
  · rcases h with h | h | ⟨d, rfl, hd⟩
    · rw [htv] at h
      exact Bool.noConfusion h
    · cases v with
      | none => simp [optTruthy] at htv
      | some w =>
        cases w with
        | jobj d => exact absurd rfl (h d)
        | jnull => simp [check_dict_fields, htv]
        | jbool bb => simp [check_dict_fields, htv]
        | jnum n => simp [check_dict_fields, htv]
        | jstr s => simp [check_dict_fields, htv]
        | jarr l => simp [check_dict_fields, htv]
    · rcases hd with hc | ho
      · simp [check_dict_fields, htv, List.findSome?, hc]
      · cases hcp : pyGet d "container" with
        | none => simp [check_dict_fields, htv, List.findSome?, hcp]
        | some w => simp [check_dict_fields, htv, List.findSome?, hcp, ho]
  · rw [Bool.not_eq_true] at htv
    simp [check_dict_fields, htv]

/-- Packaging of a rejected create: the result equals the untouched store
paired with an error of status 400. -/
theorem create_error_spec (store : Store) (r : Store × Except ErrorE Build)
    (e : ErrorE) (he : e.status = 400) (h : r = (store, .error e)) :
    r.1 = store ∧ ∃ e0, r.2 = .error e0 ∧ e0.status = 400 := by
  subst h
  exact ⟨rfl, e, rfl, he⟩

/-- C3: a create request whose build namespace is a mapping but whose
image or log descriptor is absent, not a mapping, or missing the container
or object key fails with a 400 error and inserts no Build row. -/
theorem create_invalid_descriptor_rejected_no_insert (store : Store) (user : User)
    (outer params : PyDict)
    (hbuild : pyGet outer "build" = some (JVal.jobj params))
    (hbad : descBad (pyGet params "image") ∨ descBad (pyGet params "log")) :
    (create store user (some outer)).1 = store ∧
    ∃ e, (create store user (some outer)).2 = .error e ∧ e.status = 400 := by
  have houter : outer.isEmpty = false := by
    cases outer with
    | nil => simp [pyGet] at hbuild
    | cons a l => rfl
  by_cases hpe : params.isEmpty = true
  · exact create_error_spec store _ ⟨msgBuildFieldsMissing, 400⟩ rfl
      (by simp [create, houter, hbuild, hpe])
  · rw [Bool.not_eq_true] at hpe
    by_cases hname : optTruthy (pyGet params "name") = true
    · by_cases hsrc : optTruthy (pyGet params "src") = true
      · cases hci : check_dict_fields "image" (pyGet params "image")
            ["container", "object"] with
        | some e =>
          exact create_error_spec store _ e
            (check_dict_fields_status "image" _ _ e hci)
            (by simp [create, houter, hbuild, hpe, hname, hsrc, hci])
        | none =>
          cases hcl : check_dict_fields "log" (pyGet params "log")
              ["container", "object"] with
          | some e =>
            exact create_error_spec store _ e
              (check_dict_fields_status "log" _ _ e hcl)
              (by simp [create, houter, hbuild, hpe, hname, hsrc, hci, hcl])
          | none =>
            exfalso
            rcases hbad with hbad | hbad
            · have he := check_dict_fields_isSome_of_descBad "image" _ hbad
              rw [hci] at he
              exact Bool.noConfusion he
            · have he := check_dict_fields_isSome_of_descBad "log" _ hbad
              rw [hcl] at he
              exact Bool.noConfusion he
      · rw [Bool.not_eq_true] at hsrc
        exact create_error_spec store _ ⟨msgParamMissing "src", 400⟩ rfl
          (by simp [create, houter, hbuild, hpe, hname, hsrc])
    · rw [Bool.not_eq_true] at hname
      exact create_error_spec store _ ⟨msgParamMissing "name", 400⟩ rfl
        (by simp [create, houter, hbuild, hpe, hname])

/-- C3 witness: the image descriptor of the claim, a mapping with a
container but no object key; create returns 400 and the store is
unchanged. -/
theorem create_invalid_descriptor_rejected_no_insert_witness :
    (create ⟨[], []⟩ ⟨1, "uu", "tk"⟩ (some [("build", JVal.jobj
        [("name", JVal.jstr "img1"), ("src", JVal.jstr "http://x/img"),
         ("image", JVal.jobj [("container", JVal.jstr "c1")]),
         ("log", JVal.jobj [("container", JVal.jstr "logs"),
                            ("object", JVal.jstr "l1")])])])).1 = ⟨[], []⟩ ∧
    ∃ e, (create ⟨[], []⟩ ⟨1, "uu", "tk"⟩ (some [("build", JVal.jobj
        [("name", JVal.jstr "img1"), ("src", JVal.jstr "http://x/img"),
         ("image", JVal.jobj [("container", JVal.jstr "c1")]),
         ("log", JVal.jobj [("container", JVal.jstr "logs"),
                            ("object", JVal.jstr "l1")])])])).2 = .error e ∧
      e.status = 400 :=
  create_invalid_descriptor_rejected_no_insert ⟨[], []⟩ ⟨1, "uu", "tk"⟩ _ _
    rfl (Or.inl (Or.inr (Or.inr ⟨[("container", JVal.jstr "c1")], rfl,
      Or.inr rfl⟩)))

/-- C5 counterexample: on provisioner success the committed status detail
is the literal "started icaas agent creation", not the "started agent
creation" stated by the claim. -/
theorem create_agent_detail_differs_from_claim :
    ((create_agent sampleSettings
        ⟨[sampleBuild 1 1 "CREATING" "t" false false], []⟩ 1 "http://x/img" "img1"
        (JVal.jobj [("container", JVal.jstr "logs"), ("object", JVal.jstr "l1")])
        (JVal.jobj [("container", JVal.jstr "imgs"), ("object", JVal.jstr "o1")])
        "utok" (.ok 7)).store.builds.map Build.status_details =
      [JVal.jstr "started icaas agent creation"]) ∧
    JVal.jstr "started icaas agent creation" ≠ JVal.jstr "started agent creation" :=
  ⟨rfl, fun h => absurd (JVal.jstr.inj h) (by decide)⟩

/-- C5 amended: when the background provisioning task refetches its build
and the compute call succeeds, it commits the returned VM id, sets
agent_alive to true and sets the status detail to the literal
"started icaas agent creation". -/
theorem create_agent_success_stores_vm_and_detail (settings : Settings)
    (store : Store) (buildid : Nat) (src name : String) (log image : JVal)
    (token : String) (vmId : Nat) (b : Build) (m : List (String × String × JVal))
    (hfind : (store.builds.filter
        (fun x => x.id == buildid && !x.deleted)).head? = some b)
    (hman : _create_manifest settings src name log image token b.id b.token =
      some m) :
    create_agent settings store buildid src name log image token (.ok vmId) =
      ⟨store.setBuild
        { b with
          agent := some vmId, agent_alive := true,
          status_details := JVal.jstr "started icaas agent creation" },
       true, true, none⟩ := by
  simp [create_agent, hfind, hman]

/-- C5 witness: the success path on a store holding the refetched build. -/
theorem create_agent_success_stores_vm_and_detail_witness :
    create_agent sampleSettings ⟨[sampleBuild 1 1 "CREATING" "t" false false], []⟩ 1
        "http://x/img" "img1"
        (JVal.jobj [("container", JVal.jstr "logs"), ("object", JVal.jstr "l1")])
        (JVal.jobj [("container", JVal.jstr "imgs"), ("object", JVal.jstr "o1")])
        "utok" (.ok 7) =
      ⟨(⟨[sampleBuild 1 1 "CREATING" "t" false false], []⟩ : Store).setBuild
        { sampleBuild 1 1 "CREATING" "t" false false with
          agent := some 7, agent_alive := true,
          status_details := JVal.jstr "started icaas agent creation" },
       true, true, none⟩ :=
  create_agent_success_stores_vm_and_detail sampleSettings
    ⟨[sampleBuild 1 1 "CREATING" "t" false false], []⟩ 1 "http://x/img" "img1"
    (JVal.jobj [("container", JVal.jstr "logs"), ("object", JVal.jstr "l1")])
    (JVal.jobj [("container", JVal.jstr "imgs"), ("object", JVal.jstr "o1")])
    "utok" 7 (sampleBuild 1 1 "CREATING" "t" false false) _ rfl rfl

/-- C9: when the build was soft-deleted before the background task runs,
the deleted=False refetch finds no row and the task builds no manifest and
never calls the compute provisioner; however, instead of logging and
returning, the source evaluates build.id on None inside the log call and
the thread dies with an AttributeError. -/
theorem create_agent_deleted_refetch_no_provision :
    create_agent sampleSettings ⟨[sampleBuild 1 1 "CREATING" "t" false true], []⟩ 1
        "http://x/img" "img1"
        (JVal.jobj [("container", JVal.jstr "logs"), ("object", JVal.jstr "l1")])
        (JVal.jobj [("container", JVal.jstr "imgs"), ("object", JVal.jstr "o1")])
        "utok" (.ok 7) =
      ⟨⟨[sampleBuild 1 1 "CREATING" "t" false true], []⟩, false, false,
       some "AttributeError: \x27NoneType\x27 object has no attribute \x27id\x27"⟩ :=
  rfl

end Icaas
